import Mathlib

/-
Verification development for the MySQL MCP server
(source: MySQL_MCP_Server-v3.py).

The Python source is shallowly embedded: pure string assembly (SQL
builders, JSON serialization, password masking) becomes Lean functions;
the stateful manager (get_connection / release_connection / close_pool)
becomes explicit state passing over an `MState` record, with the
behaviour of the external driver (aiomysql.create_pool, pool.acquire,
pool.close, cursor.execute, fetch results) supplied by environment
records of oracles; the concurrent first-acquire race of
`get_connection` becomes a small-step interleaving semantics over a
task list guarded by an explicit lock.
-/

namespace MySQLMCP

/-- Python values that flow through the handlers: strings, ints, bools and
None, matching what the driver returns and what json.dumps serializes. -/
inductive PyVal where
  | s (v : String)
  | i (v : Int)
  | b (v : Bool)
  | none
deriving DecidableEq

/-- Python str() of a value, as used by f-string interpolation. -/
def PyVal.str : PyVal → String
  | PyVal.s v => v
  | PyVal.i v => toString v
  | PyVal.b true => "True"
  | PyVal.b false => "False"
  | PyVal.none => "None"

/-- Hex digit for JSON control-character escapes. -/
def hexDigit (n : Nat) : Char :=
  if n < 10 then Char.ofNat (48 + n) else Char.ofNat (87 + n)

/-- Escaping of a single character as json.dumps with ensure_ascii=False
performs it: quote, backslash, and control characters are escaped,
everything else (including non-ASCII) is emitted literally. -/
def escapeChar (c : Char) : String :=
  if c = '"' then "\\\""
  else if c = '\\' then "\\\\"
  else if c = '\n' then "\\n"
  else if c = '\t' then "\\t"
  else if c = '\r' then "\\r"
  else if c.toNat = 8 then "\\b"
  else if c.toNat = 12 then "\\f"
  else if c.toNat < 32 then
    String.mk ['\\', 'u', '0', '0', hexDigit (c.toNat / 16), hexDigit (c.toNat % 16)]
  else String.singleton c

/-- JSON string-body escaping. -/
def jsonEscape (s : String) : String := String.join (s.data.map escapeChar)

/-- JSON string literal. -/
def jsonStr (s : String) : String := "\"" ++ jsonEscape s ++ "\""

/-- JSON rendering of a scalar value, as json.dumps renders it. -/
def PyVal.json : PyVal → String
  | PyVal.s v => jsonStr v
  | PyVal.i v => toString v
  | PyVal.b true => "true"
  | PyVal.b false => "false"
  | PyVal.none => "null"

/-- One row as returned by aiomysql.DictCursor: column name to value,
in column order (Python dicts preserve insertion order). -/
abbrev Row : Type := List (String × PyVal)

/-- One key/value pair rendered for json.dumps with indent. -/
def jsonKV (kv : String × PyVal) : String :=
  jsonStr kv.1 ++ ": " ++ PyVal.json kv.2

/-- json.dumps of a top-level dict with ensure_ascii=False, indent=2,
as produced by get_database_info. -/
def jsonDictTop (kvs : List (String × PyVal)) : String :=
  match kvs with
  | [] => "\x7b\x7d"
  | _ => "\x7b\n  " ++ String.intercalate ",\n  " (kvs.map jsonKV) ++ "\n\x7d"

/-- json.dumps of a dict nested one level inside a list, indent=2. -/
def jsonRowNested (row : Row) : String :=
  match row with
  | [] => "\x7b\x7d"
  | _ => "\x7b\n    " ++ String.intercalate ",\n    " (row.map jsonKV) ++ "\n  \x7d"

/-- json.dumps of the formatted_results list built by select_data:
a list of row dicts with ensure_ascii=False, indent=2, default=str. -/
def jsonDumpsRows (rows : List Row) : String :=
  match rows with
  | [] => "[]"
  | _ => "[\n  " ++ String.intercalate ",\n  " (rows.map jsonRowNested) ++ "\n]"

/-- The db_config dictionary built in MySQLManager.__init__ (charset and
autocommit are the fixed literals from the source). -/
structure DbConfig where
  host : String
  port : Int
  user : String
  password : String
  db : String
deriving DecidableEq

/-- Password masking from get_config_info:
`'*' * len(password) if password else 'Empty'` (the Python truthiness
test on a string is emptiness). -/
def maskPassword (p : String) : String :=
  if p.length = 0 then "Empty" else String.mk (List.replicate p.length '*')

/-- MySQLManager.get_config_info: a copy of db_config with the password
replaced by the mask, in the insertion order of db_config. -/
def get_config_info (cfg : DbConfig) : List (String × PyVal) :=
  [ ("host", PyVal.s cfg.host),
    ("port", PyVal.i cfg.port),
    ("user", PyVal.s cfg.user),
    ("password", PyVal.s (maskPassword cfg.password)),
    ("db", PyVal.s cfg.db),
    ("charset", PyVal.s "utf8mb4"),
    ("autocommit", PyVal.b true) ]

/-- Outcome of a driver call: a normal return, or a raised exception
carrying its message (str(e)). -/
inductive Outcome (α : Type) where
  | ok (a : α)
  | exn (msg : String)
deriving DecidableEq

/-- Environment shared by the tool handlers: outcomes of the driver calls
a handler invocation performs. `acquire` is the result of
mysql_manager.get_connection(); `exec q ps` is the result of
cursor.execute(q, ps); the fetch fields are what the cursor hands back. -/
structure HandlerEnv where
  acquire : Outcome Unit
  exec : String → List PyVal → Outcome Unit
  rowcount : Int
  rows : List Row
  tupleRows : List (List PyVal)
  fetchone1 : Option (List PyVal)
  fetchone2 : Option (List PyVal)

/-- Python `conn = None; try: conn = acquire(); r = body
except Exception as e: r = onExn(str(e))
finally: if conn: release_connection(conn)`.
The first component is what the handler returns to the dispatcher
(`Except.error` would mean an uncaught exception propagating out; the
`except Exception` clause matches every exception, so it never occurs);
the second component counts release_connection calls made by the
finally block: conn is bound exactly when acquire returned normally. -/
def pyTryExceptFinally (acquireRes : Outcome Unit) (body : Except String String)
    (onExn : String → String) : Except String String × Nat :=
  let tryOutcome : Except String String × Option Unit :=
    match acquireRes with
    | Outcome.exn e => (Except.error e, Option.none)
    | Outcome.ok c => (body, Option.some c)
  let afterExcept : Except String String :=
    match tryOutcome.1 with
    | Except.ok s => Except.ok s
    | Except.error e => Except.ok (onExn e)
  let finallyReleases : Nat :=
    match tryOutcome.2 with
    | Option.none => 0
    | Option.some _ => 1
  (afterExcept, finallyReleases)

/-- The shared handler skeleton: every tool wraps its body in the same
acquire / try / except / finally protocol, with an operation-specific
error prefix prepended to str(e). -/
def handlerFrame (env : HandlerEnv) (body : Except String String)
    (errPrefix : String) : Except String String × Nat :=
  pyTryExceptFinally env.acquire body (fun e => errPrefix ++ e)

/-- One column specification handed to create_table. -/
structure Column where
  name : String
  type : String
  constraints : Option String
deriving DecidableEq

/-- Column rendering in create_table: name and type, plus the constraints
when present and truthy (a missing key and an empty string both skip). -/
def columnDef (col : Column) : String :=
  let col_def := "`" ++ col.name ++ "` " ++ col.type
  match col.constraints with
  | Option.some c => if c = "" then col_def else col_def ++ " " ++ c
  | Option.none => col_def

/-- The CREATE TABLE statement text built by create_table. -/
def createTableSQL (table_name : String) (columns : List Column) : String :=
  "CREATE TABLE IF NOT EXISTS `" ++ table_name ++ "` ("
    ++ String.intercalate ", " (columns.map columnDef) ++ ")"

/-- The INSERT statement text built by insert_data: backticked column
names from the keys, one %s placeholder per value. -/
def insertSQL (table_name : String) (data : List (String × PyVal)) : String :=
  let columns := data.map Prod.fst
  let values := data.map Prod.snd
  let placeholders := String.intercalate ", " (List.replicate values.length "%s")
  let column_names := String.intercalate ", " (columns.map (fun col => "`" ++ col ++ "`"))
  "INSERT INTO `" ++ table_name ++ "` (" ++ column_names ++ ") VALUES (" ++ placeholders ++ ")"

/-- The SELECT statement text built by select_data: the WHERE fragment is
appended only when the clause is truthy (non-empty), LIMIT always. -/
def selectSQL (table_name column_str where_clause : String) (limit : Int) : String :=
  "SELECT " ++ column_str ++ " FROM `" ++ table_name ++ "`"
    ++ (if where_clause = "" then "" else " WHERE " ++ where_clause)
    ++ " LIMIT " ++ toString limit

/-- The UPDATE statement text built by update_data: the caller's
where_clause is concatenated verbatim after the WHERE keyword. -/
def updateSQL (table_name : String) (data : List (String × PyVal))
    (where_clause : String) : String :=
  let set_clause := String.intercalate ", " (data.map (fun kv => "`" ++ kv.1 ++ "` = %s"))
  "UPDATE `" ++ table_name ++ "` SET " ++ set_clause ++ " WHERE " ++ where_clause

/-- The DELETE statement text built by delete_data. -/
def deleteSQL (table_name where_clause : String) : String :=
  "DELETE FROM `" ++ table_name ++ "` WHERE " ++ where_clause

/-- Python `xs[0]` on a tuple rendered as Except: raises on empty. -/
def pyIndex0 (l : List PyVal) : Except String PyVal :=
  match l with
  | [] => Except.error "tuple index out of range"
  | v :: _ => Except.ok v

/-- Python `x[0] if x else dflt` on a fetchone result: None and the empty
tuple are falsy. -/
def tupleFirstOr (o : Option (List PyVal)) (dflt : PyVal) : PyVal :=
  match o with
  | Option.some (v :: _) => v
  | Option.some [] => dflt
  | Option.none => dflt

/-- The create_table tool handler. -/
def create_table (table_name : String) (columns : List Column)
    (env : HandlerEnv) : Except String String × Nat :=
  handlerFrame env
    (match env.exec (createTableSQL table_name columns) [] with
     | Outcome.exn e => Except.error e
     | Outcome.ok _ => Except.ok ("表 '" ++ table_name ++ "' 创建成功"))
    "创建表失败: "

/-- The insert_data tool handler: the values list is passed to
cursor.execute as bound parameters next to the SQL text. -/
def insert_data (table_name : String) (data : List (String × PyVal))
    (env : HandlerEnv) : Except String String × Nat :=
  handlerFrame env
    (match env.exec (insertSQL table_name data) (data.map Prod.snd) with
     | Outcome.exn e => Except.error e
     | Outcome.ok _ =>
       Except.ok ("数据插入成功，受影响行数: " ++ toString env.rowcount))
    "插入数据失败: "

/-- The select_data tool handler: defaults columns to ["*"], builds the
statement, and maps an empty fetchall to the explicit no-data marker,
a non-empty one to the indented JSON dump of the row dicts. -/
def select_data (table_name : String) (columns : Option (List String))
    (where_clause : String) (limit : Int) (env : HandlerEnv) :
    Except String String × Nat :=
  let columns := columns.getD ["*"]
  handlerFrame env
    (let column_str :=
       if columns = ["*"] then "*"
       else String.intercalate ", " (columns.map (fun col => "`" ++ col ++ "`"))
     match env.exec (selectSQL table_name column_str where_clause limit) [] with
     | Outcome.exn e => Except.error e
     | Outcome.ok _ =>
       let results := env.rows
       if results.isEmpty then Except.ok "未找到数据"
       else Except.ok (jsonDumpsRows results))
    "查询数据失败: "

/-- The update_data tool handler. -/
def update_data (table_name : String) (data : List (String × PyVal))
    (where_clause : String) (env : HandlerEnv) : Except String String × Nat :=
  handlerFrame env
    (match env.exec (updateSQL table_name data where_clause) (data.map Prod.snd) with
     | Outcome.exn e => Except.error e
     | Outcome.ok _ =>
       Except.ok ("数据更新成功，受影响行数: " ++ toString env.rowcount))
    "更新数据失败: "

/-- The delete_data tool handler. -/
def delete_data (table_name : String) (where_clause : String)
    (env : HandlerEnv) : Except String String × Nat :=
  handlerFrame env
    (match env.exec (deleteSQL table_name where_clause) [] with
     | Outcome.exn e => Except.error e
     | Outcome.ok _ =>
       Except.ok ("数据删除成功，受影响行数: " ++ toString env.rowcount))
    "删除数据失败: "

/-- The show_tables tool handler: lists first elements of the fetched
tuples, or the explicit no-tables marker. -/
def show_tables (env : HandlerEnv) : Except String String × Nat :=
  handlerFrame env
    (match env.exec "SHOW TABLES" [] with
     | Outcome.exn e => Except.error e
     | Outcome.ok _ =>
       let tables := env.tupleRows
       if tables.isEmpty then Except.ok "数据库中没有表"
       else
         match tables.mapM pyIndex0 with
         | Except.error e => Except.error e
         | Except.ok table_list =>
           Except.ok ("数据库中的表(" ++ toString table_list.length ++ "个):\n"
             ++ String.intercalate "\n" (table_list.map (fun table => "- " ++ PyVal.str table))))
    "显示表失败: "

/-- The get_database_info tool handler: runs SELECT VERSION() and
SELECT DATABASE(), merges the masked config with the results and the
fixed connection status, and dumps the dict as indented JSON. -/
def get_database_info (cfg : DbConfig) (env : HandlerEnv) :
    Except String String × Nat :=
  handlerFrame env
    (match env.exec "SELECT VERSION()" [] with
     | Outcome.exn e => Except.error e
     | Outcome.ok _ =>
       let version := env.fetchone1
       match env.exec "SELECT DATABASE()" [] with
       | Outcome.exn e => Except.error e
       | Outcome.ok _ =>
         let current_db := env.fetchone2
         let config_info := get_config_info cfg
         let info := config_info ++
           [ ("mysql_version", tupleFirstOr version (PyVal.s "Unknown")),
             ("current_database", tupleFirstOr current_db (PyVal.s "None")),
             ("connection_status", PyVal.s "Connected") ]
         Except.ok (jsonDictTop info))
    "获取数据库信息失败: "

/-- The startup connectivity test. Its try block has no finally clause:
the release_connection call sits after the `async with` cursor block,
so on the success path (`result[0] == 1` returns True from inside the
with block) it is never reached. The second component counts
release_connection calls. A None fetch result or an empty tuple raises
inside the try (`result[0]`) and is caught, returning False. -/
def test_connection (env : HandlerEnv) : Bool × Nat :=
  match env.acquire with
  | Outcome.exn _ => (false, 0)
  | Outcome.ok _ =>
    match env.exec "SELECT 1" [] with
    | Outcome.exn _ => (false, 0)
    | Outcome.ok _ =>
      match env.fetchone1 with
      | Option.none => (false, 0)
      | Option.some [] => (false, 0)
      | Option.some (v :: _) =>
        if v = PyVal.i 1 then (true, 0)
        else (false, 1)

/-- Sequential state of a MySQLManager: the pool reference (identified by
a generation number so a re-created pool is distinguishable from the one
that was closed), plus counters of the physical driver calls performed
so far (aiomysql.create_pool, pool.acquire, pool.close). -/
structure MState where
  pool : Option Nat
  nextPoolId : Nat
  createCalls : Nat
  acquireCalls : Nat
  closeCalls : Nat
deriving DecidableEq

/-- Oracles for the driver calls a MySQLManager makes: the outcome of the
k-th create_pool, pool.acquire and pool.close/wait_closed call. -/
structure MgrEnv where
  createOk : Nat → Bool
  acquireOk : Nat → Bool
  closeOk : Nat → Bool

/-- What a get_connection call produces: a connection from a given pool
generation, or a raised exception. -/
inductive GetConnResult where
  | conn (poolId : Nat)
  | raised (msg : String)
deriving DecidableEq

/-- The fresh manager right after MySQLManager.__init__. -/
def initMState : MState := ⟨Option.none, 0, 0, 0, 0⟩

/-- The `conn = await self.pool.acquire()` step of get_connection, after
the lock has been released: success returns the connection, failure is
logged and re-raised. -/
def acquireFromPool (env : MgrEnv) (pid : Nat) (s : MState) :
    GetConnResult × MState :=
  if env.acquireOk s.acquireCalls then
    (GetConnResult.conn pid, { s with acquireCalls := s.acquireCalls + 1 })
  else
    (GetConnResult.raised "获取数据库连接失败",
     { s with acquireCalls := s.acquireCalls + 1 })

/-- MySQLManager.get_connection run by a single caller: under the lock,
a missing pool triggers aiomysql.create_pool (raising on failure, and
leaving self.pool unset in that case); then the pool is acquired from. -/
def get_connection (env : MgrEnv) (s : MState) : GetConnResult × MState :=
  match s.pool with
  | Option.some pid => acquireFromPool env pid s
  | Option.none =>
    if env.createOk s.createCalls then
      acquireFromPool env s.nextPoolId
        { s with pool := Option.some s.nextPoolId,
                 nextPoolId := s.nextPoolId + 1,
                 createCalls := s.createCalls + 1 }
    else
      (GetConnResult.raised "创建数据库连接池失败",
       { s with createCalls := s.createCalls + 1 })

/-- MySQLManager.close_pool: a no-op when self.pool is unset; otherwise
pool.close()/wait_closed() runs and, only when it succeeds, self.pool is
cleared — an exception is caught and logged, leaving self.pool set. -/
def close_pool (env : MgrEnv) (s : MState) : MState :=
  match s.pool with
  | Option.none => s
  | Option.some _ =>
    if env.closeOk s.closeCalls then
      { s with pool := Option.none, closeCalls := s.closeCalls + 1 }
    else
      { s with closeCalls := s.closeCalls + 1 }

/-- Program counter of one task running get_connection against a shared
uninitialized manager: it tries to take the asyncio lock, checks
self.pool, possibly performs the create_pool call (remaining inside the
lock), leaves the lock, and finally acquires from the pool. A failed
creation propagates out of the `async with`, releasing the lock. -/
inductive TaskPC where
  | start
  | locked
  | toCreate
  | unlock
  | acq
  | gotConn
  | createFailed
deriving DecidableEq

/-- Shared state of the concurrent first-acquire race: whether the pool
exists, who holds the lock, each task's program counter, and how many
aiomysql.create_pool calls have been performed. -/
structure PoolSys where
  pool : Bool
  lockHeld : Option Nat
  tasks : List TaskPC
  createCalls : Nat
deriving DecidableEq

/-- One atomic step of task t. A task at `start` blocks (no change) while
another task holds the lock; checking self.pool and calling create_pool
are separate steps, both performed while holding the lock, exactly as in
the source where the lock spans the check and the creation. -/
def poolStep (createOk : Nat → Bool) (s : PoolSys) (t : Nat) : PoolSys :=
  match s.tasks[t]? with
  | Option.none => s
  | Option.some TaskPC.start =>
    match s.lockHeld with
    | Option.none =>
      { s with lockHeld := Option.some t, tasks := s.tasks.set t TaskPC.locked }
    | Option.some _ => s
  | Option.some TaskPC.locked =>
    match s.pool with
    | true => { s with tasks := s.tasks.set t TaskPC.unlock }
    | false => { s with tasks := s.tasks.set t TaskPC.toCreate }
  | Option.some TaskPC.toCreate =>
    match createOk s.createCalls with
    | true =>
      { s with pool := true, createCalls := s.createCalls + 1,
               tasks := s.tasks.set t TaskPC.unlock }
    | false =>
      { s with createCalls := s.createCalls + 1, lockHeld := Option.none,
               tasks := s.tasks.set t TaskPC.createFailed }
  | Option.some TaskPC.unlock =>
    { s with lockHeld := Option.none, tasks := s.tasks.set t TaskPC.acq }
  | Option.some TaskPC.acq => { s with tasks := s.tasks.set t TaskPC.gotConn }
  | Option.some TaskPC.gotConn => s
  | Option.some TaskPC.createFailed => s

/-- Run a schedule: an arbitrary interleaving given as the list of task
ids taking successive steps. -/
def poolRun (createOk : Nat → Bool) (s : PoolSys) (sched : List Nat) : PoolSys :=
  sched.foldl (poolStep createOk) s

/-- Initial race state: n tasks all about to call get_connection against
an uninitialized manager. -/
def poolInit (n : Nat) : PoolSys :=
  { pool := false, lockHeld := Option.none,
    tasks := List.replicate n TaskPC.start, createCalls := 0 }

/-- A task is inside the lock-protected section. -/
def critical (pc : TaskPC) : Prop :=
  pc = TaskPC.locked ∨ pc = TaskPC.toCreate ∨ pc = TaskPC.unlock

/-- Invariant of the race under an always-succeeding create oracle:
the creation counter matches pool existence, any task inside the
critical section is the lock holder, and a task about to create has
observed the pool missing. -/
structure PoolInv (s : PoolSys) : Prop where
  count : s.createCalls = (if s.pool then 1 else 0)
  crit : ∀ (t : Nat) (pc : TaskPC), s.tasks[t]? = Option.some pc → critical pc →
    s.lockHeld = Option.some t
  creating : ∀ t : Nat, s.tasks[t]? = Option.some TaskPC.toCreate → s.pool = false

/-- Modelled from the spec: a handler releases exactly the connections it
acquired — one release_connection call when acquisition succeeded, none
when get_connection raised. -/
def expectedReleases (env : HandlerEnv) : Nat :=
  match env.acquire with
  | Outcome.ok _ => 1
  | Outcome.exn _ => 0

/-- Whether the first list is an initial segment of the second. -/
def leadingChars : List Char → List Char → Bool
  | [], _ => true
  | _ :: _, [] => false
  | a :: as, b :: bs => a == b && leadingChars as bs

/-- Whether the needle occurs contiguously somewhere in the haystack. -/
def strContainsChars (needle : List Char) : List Char → Bool
  | [] => leadingChars needle []
  | c :: rest => leadingChars needle (c :: rest) || strContainsChars needle rest

/-- Substring containment on strings. -/
def strContains (hay needle : String) : Bool :=
  strContainsChars needle.data hay.data

/-- The string carried by a successful handler result. -/
def okResultString : Except String String → String
  | Except.ok s => s
  | Except.error _ => ""

/-- Whether a handler result is a normal (non-propagating) one. -/
def isOkRes : Except String String → Bool
  | Except.ok _ => true
  | Except.error _ => false

/-- Driver oracles in which every create, acquire and close call succeeds. -/
def allOkMgrEnv : MgrEnv := ⟨fun _ => true, fun _ => true, fun _ => true⟩

/-- Driver oracles in which the first pool close fails and later ones
succeed. -/
def closeFailEnv : MgrEnv := ⟨fun _ => true, fun _ => true, fun k => decide (0 < k)⟩

/-- A manager holding an initialized pool (generation 0). -/
def mstateWithPool : MState := ⟨Option.some 0, 1, 1, 0, 0⟩

/-- A configuration whose password is the single character that the
masking placeholder is built from. -/
def cexCfg : DbConfig := ⟨"h", 3306, "u", "*", "d"⟩

/-- A handler environment in which every driver call succeeds and the two
introspection queries return one-column rows. -/
def cexEnv : HandlerEnv :=
  ⟨Outcome.ok (), fun _ _ => Outcome.ok (), 0, [], [],
   Option.some [PyVal.s "8"], Option.some [PyVal.s "d"]⟩

/-- A handler environment for the startup test in which SELECT 1 succeeds
and fetchone returns the row (1,). -/
def tcEnv : HandlerEnv :=
  ⟨Outcome.ok (), fun _ _ => Outcome.ok (), 0, [], [],
   Option.some [PyVal.i 1], Option.none⟩

/-- A handler environment whose query succeeds and matches zero rows. -/
def emptyRowsEnv : HandlerEnv :=
  ⟨Outcome.ok (), fun _ _ => Outcome.ok (), 0, [], [], Option.none, Option.none⟩

/-- A handler environment whose query succeeds and matches one row. -/
def oneRowEnv : HandlerEnv :=
  ⟨Outcome.ok (), fun _ _ => Outcome.ok (), 0, [[("a", PyVal.i 1)]], [],
   Option.none, Option.none⟩

/-- A handler environment in which get_connection raises. -/
def acqFailEnv : HandlerEnv :=
  ⟨Outcome.exn "boom", fun _ _ => Outcome.ok (), 0, [], [],
   Option.none, Option.none⟩

/-- A handler environment in which acquisition succeeds but every
statement execution raises. -/
def execFailEnv : HandlerEnv :=
  ⟨Outcome.ok (), fun _ _ => Outcome.exn "bad sql", 0, [], [],
   Option.none, Option.none⟩

/-- An index that reads a value is in bounds. -/
theorem lt_of_get?_some {α : Type} {l : List α} {i : Nat} {a : α}
    (h : l[i]? = Option.some a) : i < l.length := by
  by_contra hn
  rw [List.getElem?_eq_none (Nat.le_of_not_lt hn)] at h
  exact Option.noConfusion h

/-- Reading back the updated index after an in-bounds set. -/
theorem set_get_same {α : Type} {l : List α} {i : Nat} (a : α)
    (h : i < l.length) : (l.set i a)[i]? = Option.some a := by
  simp [List.getElem?_set, h]

/-- Reading any other index after a set. -/
theorem set_get_other {α : Type} {l : List α} {i j : Nat} (a : α)
    (h : i ≠ j) : (l.set i a)[j]? = l[j]? := by
  simp [List.getElem?_set, h]

/-- Strings that start with different characters are different. -/
theorem string_head_ne (a b : String) (h : a.data.head? ≠ b.data.head?) :
    a ≠ b :=
  fun he => h (by rw [he])

/-- One step of any task preserves the race invariant when every
create_pool attempt succeeds. -/
theorem poolStep_inv (createOk : Nat → Bool) (hok : ∀ k, createOk k = true)
    (s : PoolSys) (hs : PoolInv s) (t : Nat) : PoolInv (poolStep createOk s t) := by
  cases hpc : s.tasks[t]? with
  | none => simpa [poolStep, hpc] using hs
  | some pc =>
    have htlen : t < s.tasks.length := lt_of_get?_some hpc
    cases pc with
    | start =>
      cases hl : s.lockHeld with
      | some u => simpa [poolStep, hpc, hl] using hs
      | none =>
        simp only [poolStep, hpc, hl]
        refine ⟨hs.count, ?_, ?_⟩
        · intro u pcu hu hcrit
          by_cases hut : u = t
          · subst hut; rfl
          · rw [set_get_other _ (fun he => hut he.symm)] at hu
            exact absurd (hs.crit u pcu hu hcrit) (by simp [hl])
        · intro u hu
          by_cases hut : u = t
          · subst hut
            rw [set_get_same _ htlen] at hu
            exact absurd hu (by simp)
          · rw [set_get_other _ (fun he => hut he.symm)] at hu
            exact hs.creating u hu
    | locked =>
      have hlt : s.lockHeld = Option.some t :=
        hs.crit t TaskPC.locked hpc (Or.inl rfl)
      cases hp : s.pool with
      | true =>
        simp only [poolStep, hpc, hp]
        refine ⟨by rw [hs.count, hp], ?_, ?_⟩
        · intro u pcu hu hcrit
          by_cases hut : u = t
          · subst hut; exact hlt
          · rw [set_get_other _ (fun he => hut he.symm)] at hu
            exact hs.crit u pcu hu hcrit
        · intro u hu
          by_cases hut : u = t
          · subst hut
            rw [set_get_same _ htlen] at hu
            exact absurd hu (by simp)
          · rw [set_get_other _ (fun he => hut he.symm)] at hu
            have hpf := hs.creating u hu
            rw [hp] at hpf
            exact Bool.noConfusion hpf
      | false =>
        simp only [poolStep, hpc, hp]
        refine ⟨by rw [hs.count, hp], ?_, ?_⟩
        · intro u pcu hu hcrit
          by_cases hut : u = t
          · subst hut; exact hlt
          · rw [set_get_other _ (fun he => hut he.symm)] at hu
            exact hs.crit u pcu hu hcrit
        · intro u _
          rfl
    | toCreate =>
      have hlt : s.lockHeld = Option.some t :=
        hs.crit t TaskPC.toCreate hpc (Or.inr (Or.inl rfl))
      have hpf : s.pool = false := hs.creating t hpc
      have hcount : s.createCalls = 0 := by simp [hs.count, hpf]
      simp only [poolStep, hpc, hok s.createCalls]
      refine ⟨by simp [hcount], ?_, ?_⟩
      · intro u pcu hu hcrit
        by_cases hut : u = t
        · subst hut; exact hlt
        · rw [set_get_other _ (fun he => hut he.symm)] at hu
          exact hs.crit u pcu hu hcrit
      · intro u hu
        by_cases hut : u = t
        · subst hut
          rw [set_get_same _ htlen] at hu
          exact absurd hu (by simp)
        · rw [set_get_other _ (fun he => hut he.symm)] at hu
          have h1 : s.lockHeld = Option.some u :=
            hs.crit u TaskPC.toCreate hu (Or.inr (Or.inl rfl))
          rw [hlt] at h1
          exact absurd (Option.some.inj h1).symm hut
    | unlock =>
      have hlt : s.lockHeld = Option.some t :=
        hs.crit t TaskPC.unlock hpc (Or.inr (Or.inr rfl))
      simp only [poolStep, hpc]
      refine ⟨hs.count, ?_, ?_⟩
      · intro u pcu hu hcrit
        by_cases hut : u = t
        · subst hut
          rw [set_get_same _ htlen] at hu
          rcases hcrit with h1 | h1 | h1 <;>
            exact absurd hu (by simp [h1])
        · rw [set_get_other _ (fun he => hut he.symm)] at hu
          have h1 : s.lockHeld = Option.some u := hs.crit u pcu hu hcrit
          rw [hlt] at h1
          exact absurd (Option.some.inj h1).symm hut
      · intro u hu
        by_cases hut : u = t
        · subst hut
          rw [set_get_same _ htlen] at hu
          exact absurd hu (by simp)
        · rw [set_get_other _ (fun he => hut he.symm)] at hu
          exact hs.creating u hu
    | acq =>
      simp only [poolStep, hpc]
      refine ⟨hs.count, ?_, ?_⟩
      · intro u pcu hu hcrit
        by_cases hut : u = t
        · subst hut
          rw [set_get_same _ htlen] at hu
          rcases hcrit with h1 | h1 | h1 <;>
            exact absurd hu (by simp [h1])
        · rw [set_get_other _ (fun he => hut he.symm)] at hu
          exact hs.crit u pcu hu hcrit
      · intro u hu
        by_cases hut : u = t
        · subst hut
          rw [set_get_same _ htlen] at hu
          exact absurd hu (by simp)
        · rw [set_get_other _ (fun he => hut he.symm)] at hu
          exact hs.creating u hu
    | gotConn => simpa [poolStep, hpc] using hs
    | createFailed => simpa [poolStep, hpc] using hs

/-- Running any schedule preserves the race invariant. -/
theorem poolRun_inv (createOk : Nat → Bool) (hok : ∀ k, createOk k = true)
    (sched : List Nat) :
    ∀ s : PoolSys, PoolInv s → PoolInv (poolRun createOk s sched) := by
  induction sched with
  | nil => intro s hs; exact hs
  | cons t ts ih =>
    intro s hs
    exact ih (poolStep createOk s t) (poolStep_inv createOk hok s hs t)

/-- The initial race state satisfies the invariant. -/
theorem poolInit_inv (n : Nat) : PoolInv (poolInit n) := by
  refine ⟨rfl, ?_, ?_⟩
  · intro t pc ht hcrit
    have hpc : pc = TaskPC.start := by
      rcases h : (List.replicate n TaskPC.start)[t]? with _ | pc2
      · rw [show (poolInit n).tasks = List.replicate n TaskPC.start from rfl, h] at ht
        exact Option.noConfusion ht
      · have h2 := h
        rw [List.getElem?_replicate] at h2
        by_cases hlt : t < n
        · rw [if_pos hlt] at h2
          rw [show (poolInit n).tasks = List.replicate n TaskPC.start from rfl, h] at ht
          rw [← Option.some.inj h2] at ht
          exact (Option.some.inj ht).symm
        · rw [if_neg hlt] at h2
          exact Option.noConfusion h2
    rcases hcrit with h1 | h1 | h1 <;> rw [hpc] at h1 <;> exact TaskPC.noConfusion h1
  · intro t _
    rfl

/-- Claim C1 (amended): when every aiomysql.create_pool attempt succeeds,
any interleaving of any number of concurrent get_connection callers
against an uninitialized manager performs at most one create_pool call:
the first caller to enter the lock creates the pool and every other
caller reuses it. -/
theorem get_connection_at_most_one_creation (createOk : Nat → Bool)
    (hok : ∀ k, createOk k = true) (n : Nat) (sched : List Nat) :
    (poolRun createOk (poolInit n) sched).createCalls ≤ 1 := by
  have h := poolRun_inv createOk hok sched (poolInit n) (poolInit_inv n)
  rw [h.count]
  cases (poolRun createOk (poolInit n) sched).pool <;> simp

/-- Witness: a concrete interleaving of three callers under a succeeding
create oracle performs at most one creation. -/
theorem get_connection_at_most_one_creation_witness :
    (poolRun (fun _ => true) (poolInit 3)
      [0, 1, 0, 0, 2, 0, 1, 1, 1, 2, 2, 2]).createCalls ≤ 1 :=
  get_connection_at_most_one_creation (fun _ => true) (fun _ => rfl) 3
    [0, 1, 0, 0, 2, 0, 1, 1, 1, 2, 2, 2]

/-- Claim C1 counterexample: when pool creation fails, the waiting caller
does not observe the first caller's failure — it finds self.pool still
unset and calls aiomysql.create_pool itself, so two concurrent callers
perform two physical creation calls, refuting "at most one call to
aiomysql.create_pool is ever performed". -/
theorem get_connection_two_creations_on_failure :
    (poolRun (fun _ => false) (poolInit 2) [0, 0, 0, 1, 1, 1]).createCalls = 2
    ∧ ¬ (poolRun (fun _ => false) (poolInit 2) [0, 0, 0, 1, 1, 1]).createCalls ≤ 1 := by
  decide

/-- Claim C2 counterexample: with every driver call succeeding, a
get_connection after close_pool does not fail with ConnectionError — it
returns a connection from a freshly created pool (generation 1), having
performed a second aiomysql.create_pool call. -/
theorem get_connection_after_close_returns_conn :
    (get_connection allOkMgrEnv
        (close_pool allOkMgrEnv (get_connection allOkMgrEnv initMState).2)).1
      = GetConnResult.conn 1
    ∧ (get_connection allOkMgrEnv
        (close_pool allOkMgrEnv (get_connection allOkMgrEnv initMState).2)).2.createCalls
      = 2 := by
  decide

/-- Claim C2 (amended): after close_pool has completed (leaving self.pool
unset), a subsequent get_connection silently re-initializes: provided
creation and acquisition succeed, it performs a fresh create_pool call,
installs a new pool and returns a connection from it, rather than
failing with ConnectionError. -/
theorem get_connection_after_close_reinitializes (env : MgrEnv) (s : MState)
    (hpool : (close_pool env s).pool = Option.none)
    (hc : env.createOk (close_pool env s).createCalls = true)
    (ha : env.acquireOk (close_pool env s).acquireCalls = true) :
    (get_connection env (close_pool env s)).1
      = GetConnResult.conn (close_pool env s).nextPoolId
    ∧ (get_connection env (close_pool env s)).2.pool
      = Option.some (close_pool env s).nextPoolId
    ∧ (get_connection env (close_pool env s)).2.createCalls
      = (close_pool env s).createCalls + 1 := by
  simp [get_connection, acquireFromPool, hpool, hc, ha]

/-- Witness: re-initialization after close on a concrete all-succeeding
environment. -/
theorem get_connection_after_close_reinitializes_witness :
    (get_connection allOkMgrEnv (close_pool allOkMgrEnv initMState)).1
      = GetConnResult.conn (close_pool allOkMgrEnv initMState).nextPoolId
    ∧ (get_connection allOkMgrEnv (close_pool allOkMgrEnv initMState)).2.pool
      = Option.some (close_pool allOkMgrEnv initMState).nextPoolId
    ∧ (get_connection allOkMgrEnv (close_pool allOkMgrEnv initMState)).2.createCalls
      = (close_pool allOkMgrEnv initMState).createCalls + 1 :=
  get_connection_after_close_reinitializes allOkMgrEnv initMState rfl rfl rfl

/-- Claim C6 counterexample: when the underlying pool close fails once
and then succeeds, the first close_pool call catches the exception and
leaves self.pool set, so a second close_pool call performs another pool
close operation and changes the observable state (it clears the pool),
refuting idempotence as stated. -/
theorem close_pool_twice_differs_after_failed_close :
    (close_pool closeFailEnv (close_pool closeFailEnv mstateWithPool)).pool
      ≠ (close_pool closeFailEnv mstateWithPool).pool
    ∧ (close_pool closeFailEnv (close_pool closeFailEnv mstateWithPool)).closeCalls
      ≠ (close_pool closeFailEnv mstateWithPool).closeCalls := by
  decide

/-- Claim C6 (amended): provided the underlying pool close succeeds,
close_pool is idempotent — the second call finds self.pool unset,
performs no pool operation and raises no error, leaving the state
identical — and close_pool on a never-initialized manager is a no-op. -/
theorem close_pool_idempotent_on_success (env : MgrEnv) (s : MState)
    (h : env.closeOk s.closeCalls = true) :
    close_pool env (close_pool env s) = close_pool env s
    ∧ (s.pool = Option.none → close_pool env s = s) := by
  refine ⟨?_, ?_⟩
  · cases hp : s.pool with
    | none => simp [close_pool, hp]
    | some p => simp [close_pool, hp, h]
  · intro hp
    simp [close_pool, hp]

/-- Witness: idempotence of close on a concrete initialized manager with
a succeeding close, and the no-op on a fresh manager. -/
theorem close_pool_idempotent_on_success_witness :
    (close_pool allOkMgrEnv (close_pool allOkMgrEnv mstateWithPool)
        = close_pool allOkMgrEnv mstateWithPool
      ∧ (mstateWithPool.pool = Option.none →
          close_pool allOkMgrEnv mstateWithPool = mstateWithPool))
    ∧ (close_pool allOkMgrEnv (close_pool allOkMgrEnv initMState)
        = close_pool allOkMgrEnv initMState
      ∧ (initMState.pool = Option.none →
          close_pool allOkMgrEnv initMState = initMState)) :=
  ⟨close_pool_idempotent_on_success allOkMgrEnv mstateWithPool rfl,
   close_pool_idempotent_on_success allOkMgrEnv initMState rfl⟩

/-- The mask depends on the password only through its length. -/
theorem maskPassword_of_length {p q : String} (h : p.length = q.length) :
    maskPassword p = maskPassword q := by
  unfold maskPassword
  rw [h]

/-- Claim C3 counterexample: a successful get_database_info call on the
configuration whose password is "*" returns a string that does contain
the literal configured password — the fixed-character mask coincides
with it — refuting "the returned string never contains the literal
configured password value". -/
theorem get_database_info_contains_password :
    isOkRes (get_database_info cexCfg cexEnv).1 = true
    ∧ strContains (okResultString (get_database_info cexCfg cexEnv).1)
        cexCfg.password = true := by
  decide

/-- Claim C3 (amended): get_database_info always replaces the password
field by the fixed-character mask before serializing, so its entire
result depends on the password only through the password's length: two
configurations differing only in equal-length passwords produce
identical results in every environment. -/
theorem get_database_info_password_length_only (cfg : DbConfig) (p2 : String)
    (env : HandlerEnv) (h : p2.length = cfg.password.length) :
    get_database_info cfg env
      = get_database_info (DbConfig.mk cfg.host cfg.port cfg.user p2 cfg.db) env := by
  have hmask : maskPassword cfg.password = maskPassword p2 :=
    maskPassword_of_length h.symm
  unfold get_database_info get_config_info
  rw [hmask]

/-- Witness: two configurations with distinct equal-length passwords give
the same get_database_info result. -/
theorem get_database_info_password_length_only_witness :
    get_database_info ⟨"h", 3306, "u", "aa", "d"⟩ cexEnv
      = get_database_info ⟨"h", 3306, "u", "bb", "d"⟩ cexEnv :=
  get_database_info_password_length_only ⟨"h", 3306, "u", "aa", "d"⟩ "bb" cexEnv rfl

/-- Every handler wrapped in the frame hands the dispatcher a normal
string result, whatever the driver did. -/
theorem handlerFrame_isOk (env : HandlerEnv) (body : Except String String)
    (p : String) : ∃ s, (handlerFrame env body p).1 = Except.ok s := by
  cases hacq : env.acquire with
  | exn e => exact ⟨p ++ e, by simp [handlerFrame, pyTryExceptFinally, hacq]⟩
  | ok u =>
    cases hb : body with
    | ok s => exact ⟨s, by simp [handlerFrame, pyTryExceptFinally, hacq, hb]⟩
    | error e => exact ⟨p ++ e, by simp [handlerFrame, pyTryExceptFinally, hacq, hb]⟩

/-- When get_connection raises, the except clause returns the prefixed
cause. -/
theorem handlerFrame_acquire_exn (env : HandlerEnv) (body : Except String String)
    (p e : String) (h : env.acquire = Outcome.exn e) :
    (handlerFrame env body p).1 = Except.ok (p ++ e) := by
  simp [handlerFrame, pyTryExceptFinally, h]

/-- When the try body raises after a successful acquire, the except
clause returns the prefixed cause. -/
theorem handlerFrame_body_error (env : HandlerEnv) (body : Except String String)
    (p e : String) (hacq : env.acquire = Outcome.ok ())
    (hb : body = Except.error e) :
    (handlerFrame env body p).1 = Except.ok (p ++ e) := by
  simp [handlerFrame, pyTryExceptFinally, hacq, hb]

/-- Claim C4: no invocation of any operation handler ever propagates an
exception to the dispatcher — every driver outcome yields a normal
string result — and every failure raised during connection acquisition
or during statement execution is caught at the handler boundary and
turned into that handler's descriptive error string with the cause
embedded after the operation-specific prefix. -/
theorem handlers_catch_and_embed_cause (env envA envE : HandlerEnv)
    (cfg : DbConfig) (table_name : String) (columns : List Column)
    (data : List (String × PyVal)) (selCols : Option (List String))
    (where_clause : String) (limit : Int) (eA eE : String)
    (hA : envA.acquire = Outcome.exn eA)
    (hEacq : envE.acquire = Outcome.ok ())
    (hEexec : ∀ q ps, envE.exec q ps = Outcome.exn eE) :
    ((∃ s, (create_table table_name columns env).1 = Except.ok s)
      ∧ (∃ s, (insert_data table_name data env).1 = Except.ok s)
      ∧ (∃ s, (select_data table_name selCols where_clause limit env).1 = Except.ok s)
      ∧ (∃ s, (update_data table_name data where_clause env).1 = Except.ok s)
      ∧ (∃ s, (delete_data table_name where_clause env).1 = Except.ok s)
      ∧ (∃ s, (show_tables env).1 = Except.ok s)
      ∧ (∃ s, (get_database_info cfg env).1 = Except.ok s))
    ∧ ((create_table table_name columns envA).1 = Except.ok ("创建表失败: " ++ eA)
      ∧ (insert_data table_name data envA).1 = Except.ok ("插入数据失败: " ++ eA)
      ∧ (select_data table_name selCols where_clause limit envA).1
          = Except.ok ("查询数据失败: " ++ eA)
      ∧ (update_data table_name data where_clause envA).1
          = Except.ok ("更新数据失败: " ++ eA)
      ∧ (delete_data table_name where_clause envA).1
          = Except.ok ("删除数据失败: " ++ eA)
      ∧ (show_tables envA).1 = Except.ok ("显示表失败: " ++ eA)
      ∧ (get_database_info cfg envA).1 = Except.ok ("获取数据库信息失败: " ++ eA))
    ∧ ((create_table table_name columns envE).1 = Except.ok ("创建表失败: " ++ eE)
      ∧ (insert_data table_name data envE).1 = Except.ok ("插入数据失败: " ++ eE)
      ∧ (select_data table_name selCols where_clause limit envE).1
          = Except.ok ("查询数据失败: " ++ eE)
      ∧ (update_data table_name data where_clause envE).1
          = Except.ok ("更新数据失败: " ++ eE)
      ∧ (delete_data table_name where_clause envE).1
          = Except.ok ("删除数据失败: " ++ eE)
      ∧ (show_tables envE).1 = Except.ok ("显示表失败: " ++ eE)
      ∧ (get_database_info cfg envE).1 = Except.ok ("获取数据库信息失败: " ++ eE)) :=
  ⟨⟨handlerFrame_isOk env _ _, handlerFrame_isOk env _ _,
    handlerFrame_isOk env _ _, handlerFrame_isOk env _ _,
    handlerFrame_isOk env _ _, handlerFrame_isOk env _ _,
    handlerFrame_isOk env _ _⟩,
   ⟨handlerFrame_acquire_exn envA _ _ _ hA, handlerFrame_acquire_exn envA _ _ _ hA,
    handlerFrame_acquire_exn envA _ _ _ hA, handlerFrame_acquire_exn envA _ _ _ hA,
    handlerFrame_acquire_exn envA _ _ _ hA, handlerFrame_acquire_exn envA _ _ _ hA,
    handlerFrame_acquire_exn envA _ _ _ hA⟩,
   ⟨handlerFrame_body_error envE _ _ _ hEacq (by simp [hEexec]),
    handlerFrame_body_error envE _ _ _ hEacq (by simp [hEexec]),
    handlerFrame_body_error envE _ _ _ hEacq (by simp [hEexec]),
    handlerFrame_body_error envE _ _ _ hEacq (by simp [hEexec]),
    handlerFrame_body_error envE _ _ _ hEacq (by simp [hEexec]),
    handlerFrame_body_error envE _ _ _ hEacq (by simp [hEexec]),
    handlerFrame_body_error envE _ _ _ hEacq (by simp [hEexec])⟩⟩

/-- Witness: handler results on concrete succeeding, acquisition-failing
and execution-failing environments, with every cause embedded. -/
theorem handlers_catch_and_embed_cause_witness :
    ((∃ s, (create_table "t" [] cexEnv).1 = Except.ok s)
      ∧ (∃ s, (insert_data "t" [("a", PyVal.i 1)] cexEnv).1 = Except.ok s)
      ∧ (∃ s, (select_data "t" Option.none "w" 100 cexEnv).1 = Except.ok s)
      ∧ (∃ s, (update_data "t" [("a", PyVal.i 1)] "w" cexEnv).1 = Except.ok s)
      ∧ (∃ s, (delete_data "t" "w" cexEnv).1 = Except.ok s)
      ∧ (∃ s, (show_tables cexEnv).1 = Except.ok s)
      ∧ (∃ s, (get_database_info ⟨"h", 3306, "u", "p", "d"⟩ cexEnv).1 = Except.ok s))
    ∧ ((create_table "t" [] acqFailEnv).1 = Except.ok ("创建表失败: " ++ "boom")
      ∧ (insert_data "t" [("a", PyVal.i 1)] acqFailEnv).1
          = Except.ok ("插入数据失败: " ++ "boom")
      ∧ (select_data "t" Option.none "w" 100 acqFailEnv).1
          = Except.ok ("查询数据失败: " ++ "boom")
      ∧ (update_data "t" [("a", PyVal.i 1)] "w" acqFailEnv).1
          = Except.ok ("更新数据失败: " ++ "boom")
      ∧ (delete_data "t" "w" acqFailEnv).1 = Except.ok ("删除数据失败: " ++ "boom")
      ∧ (show_tables acqFailEnv).1 = Except.ok ("显示表失败: " ++ "boom")
      ∧ (get_database_info ⟨"h", 3306, "u", "p", "d"⟩ acqFailEnv).1
          = Except.ok ("获取数据库信息失败: " ++ "boom"))
    ∧ ((create_table "t" [] execFailEnv).1 = Except.ok ("创建表失败: " ++ "bad sql")
      ∧ (insert_data "t" [("a", PyVal.i 1)] execFailEnv).1
          = Except.ok ("插入数据失败: " ++ "bad sql")
      ∧ (select_data "t" Option.none "w" 100 execFailEnv).1
          = Except.ok ("查询数据失败: " ++ "bad sql")
      ∧ (update_data "t" [("a", PyVal.i 1)] "w" execFailEnv).1
          = Except.ok ("更新数据失败: " ++ "bad sql")
      ∧ (delete_data "t" "w" execFailEnv).1 = Except.ok ("删除数据失败: " ++ "bad sql")
      ∧ (show_tables execFailEnv).1 = Except.ok ("显示表失败: " ++ "bad sql")
      ∧ (get_database_info ⟨"h", 3306, "u", "p", "d"⟩ execFailEnv).1
          = Except.ok ("获取数据库信息失败: " ++ "bad sql")) :=
  handlers_catch_and_embed_cause cexEnv acqFailEnv execFailEnv
    ⟨"h", 3306, "u", "p", "d"⟩ "t" [] [("a", PyVal.i 1)] Option.none "w" 100
    "boom" "bad sql" rfl rfl (fun _ _ => rfl)

/-- The frame's finally clause releases exactly when the try block bound
a connection. -/
theorem handlerFrame_releases (env : HandlerEnv) (body : Except String String)
    (p : String) : (handlerFrame env body p).2 = expectedReleases env := by
  cases hacq : env.acquire with
  | exn e => simp [handlerFrame, pyTryExceptFinally, expectedReleases, hacq]
  | ok u => simp [handlerFrame, pyTryExceptFinally, expectedReleases, hacq]

/-- Claim C5: on every execution path of every operation handler, the
finally block releases a connection exactly once when acquisition
succeeded and never when it failed, so no acquired connection outlives
its handler invocation. -/
theorem handlers_release_balanced (env : HandlerEnv) (cfg : DbConfig)
    (table_name : String) (columns : List Column)
    (data : List (String × PyVal)) (selCols : Option (List String))
    (where_clause : String) (limit : Int) :
    (create_table table_name columns env).2 = expectedReleases env
    ∧ (insert_data table_name data env).2 = expectedReleases env
    ∧ (select_data table_name selCols where_clause limit env).2 = expectedReleases env
    ∧ (update_data table_name data where_clause env).2 = expectedReleases env
    ∧ (delete_data table_name where_clause env).2 = expectedReleases env
    ∧ (show_tables env).2 = expectedReleases env
    ∧ (get_database_info cfg env).2 = expectedReleases env :=
  ⟨handlerFrame_releases env _ _, handlerFrame_releases env _ _,
   handlerFrame_releases env _ _, handlerFrame_releases env _ _,
   handlerFrame_releases env _ _, handlerFrame_releases env _ _,
   handlerFrame_releases env _ _⟩

/-- The INSERT statement text spelled out: it is determined by the table
name and the key list alone, with one %s placeholder per key. -/
theorem insertSQL_formula (table_name : String) (d : List (String × PyVal)) :
    insertSQL table_name d
      = "INSERT INTO `" ++ table_name ++ "` ("
        ++ String.intercalate ", " ((d.map Prod.fst).map (fun col => "`" ++ col ++ "`"))
        ++ ") VALUES ("
        ++ String.intercalate ", " (List.replicate (d.map Prod.fst).length "%s")
        ++ ")" := by
  simp [insertSQL]

/-- Claim C7: insert_data builds its SQL text from the table name and the
keys of the data alone — the placeholder segment is one %s per value,
its length being the key count — so two calls with equal table name and
equal key lists but different values produce character-for-character
identical statement text, the values travelling only as bound
parameters. -/
theorem insert_sql_function_of_keys (table_name : String)
    (d1 d2 : List (String × PyVal)) (h : d1.map Prod.fst = d2.map Prod.fst) :
    insertSQL table_name d1 = insertSQL table_name d2
    ∧ insertSQL table_name d1
      = "INSERT INTO `" ++ table_name ++ "` ("
        ++ String.intercalate ", " ((d1.map Prod.fst).map (fun col => "`" ++ col ++ "`"))
        ++ ") VALUES ("
        ++ String.intercalate ", " (List.replicate (d1.map Prod.fst).length "%s")
        ++ ")" :=
  ⟨by rw [insertSQL_formula, insertSQL_formula, h], insertSQL_formula table_name d1⟩

/-- Witness: same key, different values, identical SQL text. -/
theorem insert_sql_function_of_keys_witness :
    insertSQL "t" [("a", PyVal.i 1)] = insertSQL "t" [("a", PyVal.s "x")]
    ∧ insertSQL "t" [("a", PyVal.i 1)]
      = "INSERT INTO `" ++ "t" ++ "` ("
        ++ String.intercalate ", "
            (([("a", PyVal.i 1)].map Prod.fst).map (fun col => "`" ++ col ++ "`"))
        ++ ") VALUES ("
        ++ String.intercalate ", "
            (List.replicate ([("a", PyVal.i 1)].map Prod.fst).length "%s")
        ++ ")" :=
  insert_sql_function_of_keys "t" [("a", PyVal.i 1)] [("a", PyVal.s "x")] rfl

/-- Claim C8: a select_data whose query succeeds with zero matching rows
returns exactly the explicit no-data marker; a non-empty result is the
indented JSON dump of the row dicts, which never equals the marker, and
no error-result string (the error prefix followed by any cause) equals
the marker either. -/
theorem select_data_no_rows_marker (table_name : String)
    (selCols : Option (List String)) (where_clause : String) (limit : Int)
    (env env2 : HandlerEnv) (r : Row) (rs : List Row) (e : String)
    (hacq : env.acquire = Outcome.ok ())
    (hexec : ∀ q ps, env.exec q ps = Outcome.ok ())
    (hrows : env.rows = [])
    (hacq2 : env2.acquire = Outcome.ok ())
    (hexec2 : ∀ q ps, env2.exec q ps = Outcome.ok ())
    (hrows2 : env2.rows = r :: rs) :
    (select_data table_name selCols where_clause limit env).1
      = Except.ok "未找到数据"
    ∧ (select_data table_name selCols where_clause limit env2).1
      = Except.ok (jsonDumpsRows (r :: rs))
    ∧ jsonDumpsRows (r :: rs) ≠ "未找到数据"
    ∧ ("查询数据失败: " ++ e) ≠ "未找到数据" := by
  refine ⟨?_, ?_, ?_, ?_⟩
  · simp [select_data, handlerFrame, pyTryExceptFinally, hacq, hexec, hrows]
  · simp [select_data, handlerFrame, pyTryExceptFinally, hacq2, hexec2, hrows2]
  · apply string_head_ne
    have h1 : (jsonDumpsRows (r :: rs)).data.head? = Option.some '[' := rfl
    rw [h1]
    decide
  · apply string_head_ne
    have h2 : ("查询数据失败: " ++ e).data.head? = Option.some '查' := rfl
    rw [h2]
    decide

/-- Witness: marker on a zero-row environment, JSON on a one-row
environment, and the pairwise distinctness, at concrete inputs. -/
theorem select_data_no_rows_marker_witness :
    (select_data "t" Option.none "" 100 emptyRowsEnv).1 = Except.ok "未找到数据"
    ∧ (select_data "t" Option.none "" 100 oneRowEnv).1
      = Except.ok (jsonDumpsRows ([("a", PyVal.i 1)] :: []))
    ∧ jsonDumpsRows ([("a", PyVal.i 1)] :: []) ≠ "未找到数据"
    ∧ ("查询数据失败: " ++ "x") ≠ "未找到数据" :=
  select_data_no_rows_marker "t" Option.none "" 100 emptyRowsEnv oneRowEnv
    [("a", PyVal.i 1)] [] "x" rfl (fun _ _ => rfl) rfl rfl (fun _ _ => rfl) rfl

/-- Claim C9: when the startup round-trip succeeds — the connection is
acquired, SELECT 1 executes, and fetchone returns the row (1,) —
test_connection returns True having made zero release_connection calls:
the release statement sits after the in-block return and is unreachable
on the success path, so the tested connection stays checked out. -/
theorem test_connection_success_never_releases (env : HandlerEnv)
    (hacq : env.acquire = Outcome.ok ())
    (hexec : env.exec "SELECT 1" [] = Outcome.ok ())
    (hfetch : env.fetchone1 = Option.some [PyVal.i 1]) :
    test_connection env = (true, 0) := by
  simp [test_connection, hacq, hexec, hfetch]

/-- Witness: the successful startup test on a concrete environment
returns True with zero releases. -/
theorem test_connection_success_never_releases_witness :
    test_connection tcEnv = (true, 0) :=
  test_connection_success_never_releases tcEnv rfl rfl rfl

/-- Claim C10: update_data and delete_data always place the WHERE keyword
in the statement and append the caller's where_clause verbatim after it,
with no validation: an empty clause yields a statement ending in
"WHERE " with no predicate, never an unconditional statement lacking the
WHERE keyword. -/
theorem update_delete_where_verbatim (table_name : String)
    (data : List (String × PyVal)) (where_clause : String) :
    updateSQL table_name data where_clause
      = ("UPDATE `" ++ table_name ++ "` SET "
          ++ String.intercalate ", " (data.map (fun kv => "`" ++ kv.1 ++ "` = %s")))
        ++ " WHERE " ++ where_clause
    ∧ deleteSQL table_name where_clause
      = ("DELETE FROM `" ++ table_name ++ "`") ++ " WHERE " ++ where_clause
    ∧ updateSQL table_name data ""
      = ("UPDATE `" ++ table_name ++ "` SET "
          ++ String.intercalate ", " (data.map (fun kv => "`" ++ kv.1 ++ "` = %s")))
        ++ " WHERE "
    ∧ deleteSQL table_name ""
      = ("DELETE FROM `" ++ table_name ++ "`") ++ " WHERE " := by
  have hlit : ("` WHERE " : String) = "`" ++ " WHERE " := rfl
  refine ⟨rfl, ?_, ?_, ?_⟩
  · simp [deleteSQL, hlit, String.append_assoc]
  · simp [updateSQL, String.append_empty]
  · simp [deleteSQL, hlit, String.append_assoc, String.append_empty]

end MySQLMCP
